import Mathlib

/-!
Shallow embedding of the webhook message-processing pipeline of the
Aiassistantbot repository (src/gemini_service.py, src/telegram_bot.py,
src/app.py, src/models.py).

Modelling conventions:
* The MongoDB document store is a `DB` value: three collections as lists in
  insertion order, a logical clock standing for `datetime.utcnow()` (strictly
  increasing, stamped on each insert), and an `available` flag modelling store
  reachability; every store read or write raises (returns `Except.error`)
  exactly when `available = false`, mirroring a mongoengine operation failing.
* `order_by(-timestamp)` on the stored conversations of a user is the reverse of the
  filtered insertion-order list; this is exact because the clock stamped on
  each insert strictly increases along the stored list.
* External services are oracles passed as function arguments: the Gemini
  completion calls (`complete`, `completeVision`, keyed by the prompt string),
  the Telegram file download (`download`, returning the content of the
  downloaded file when it is readable as UTF-8 text), and the outcome of the outbound
  `sendMessage` call (`sendOk`).
* Results of handlers are records that also expose observable events of the
  run: the prompt passed to the completion client (`GenResult.prompt`) and the
  number of download calls made (`HandleResult.downloads`).
* Python truthiness on optional strings (`x or y`, `if caption:`) is
  `pyOptStr`; the Python substring test `needle in s` is `strContains`.
-/

namespace Bot

/-- One Telegram user profile as stored in the `users` collection
(src/models.py, class User). -/
structure User where
  telegram_id : Int
  username : Option String
  first_name : Option String
  last_name : Option String
  created_at : Nat
  updated_at : Nat
  is_active : Bool
deriving Repr, DecidableEq

/-- One conversation turn (src/models.py, class Conversation). -/
structure Conversation where
  user : String
  message_type : String
  content : String
  timestamp : Nat
  message_id : Option Int
deriving Repr, DecidableEq

/-- One media attachment record (src/models.py, class FileMessage). -/
structure FileMessage where
  user : String
  file_id : String
  file_type : String
  file_name : Option String
  file_size : Option Int
  mime_type : Option String
  processed : Bool
  analysis_result : Option String
  timestamp : Nat
deriving Repr, DecidableEq

/-- The document store: the three collections in insertion order, a logical
clock standing for `datetime.utcnow()`, and a reachability flag. -/
structure DB where
  users : List User
  conversations : List Conversation
  file_messages : List FileMessage
  clock : Nat
  available : Bool := true
deriving Repr, DecidableEq

/-- Outcome of one Gemini `generate_content` call: the call raises
(`failure`) or returns a response whose `.text` is `Optional[str]`. -/
inductive CompletionResult where
  | failure
  | success (text : Option String)
deriving Repr, DecidableEq

/-- Outcome of `TelegramBot.download_file` plus the subsequent read of the
temporary file: `fail` when `download_file` returns False; `ok content` when
the download succeeded, `content` being the text of the file when it is
readable as UTF-8 (`none` when the text-mode read would raise). -/
inductive Download where
  | fail
  | ok (content : Option String)
deriving Repr, DecidableEq

/-- Python truthiness of an optional string: `None` and `""` are falsy. -/
def pyOptStr : Option String → Option String
  | some s => if s == "" then none else some s
  | none => none

/-- Predicate `isPrefixCL p s` : the char list `p` is a prefix of `s`. -/
def isPrefixCL : List Char → List Char → Bool
  | [], _ => true
  | _ :: _, [] => false
  | a :: as, b :: bs => a == b && isPrefixCL as bs

/-- Predicate `containsCL p s` : the char list `p` occurs contiguously in `s`. -/
def containsCL (pat : List Char) : List Char → Bool
  | [] => isPrefixCL pat []
  | c :: rest => isPrefixCL pat (c :: rest) || containsCL pat rest

/-- Model of the Python substring test `pat in s`. -/
def strContains (s pat : String) : Bool :=
  containsCL pat.data s.data

/-- Model of Python `s.startswith(pre)`. -/
def startsWithStr (s pre : String) : Bool :=
  isPrefixCL pre.data s.data

/-- Model of Python `s.strip()`: leading and trailing whitespace removed. -/
def trimStr (s : String) : String :=
  String.mk (((s.data.dropWhile Char.isWhitespace).reverse.dropWhile Char.isWhitespace).reverse)

/-- Python `str.capitalize()`: first char uppercased, the rest lowercased. -/
def capitalizeStr (s : String) : String :=
  match s.data with
  | [] => ""
  | c :: cs => String.mk (c.toUpper :: cs.map Char.toLower)

/-- Python slice `l[-n:]`. -/
def lastSlice (n : Nat) (l : List α) : List α := l.drop (l.length - n)

/-! ## Conversation Store primitives (src/gemini_service.py) -/

/-- Replace the first user in the list whose `telegram_id` matches,
modelling `user.save()` updating the one document found by the query. -/
def replaceUser : List User → Int → User → List User
  | [], _, _ => []
  | v :: vs, id, u2 => if v.telegram_id == id then u2 :: vs else v :: replaceUser vs id u2

/-- Model of `GeminiService.get_or_create_user` (src/gemini_service.py lines 29-50).
Note the update condition tests only `username` and `first_name`, as in the
source. Raises iff the store is unavailable. -/
def get_or_create_user (db : DB) (telegram_id : Int)
    (username first_name last_name : Option String) : Except Unit (DB × User) :=
  if db.available then
    match db.users.find? (fun u => u.telegram_id == telegram_id) with
    | none =>
      let u : User :=
        { telegram_id := telegram_id, username := username, first_name := first_name,
          last_name := last_name, created_at := db.clock, updated_at := db.clock,
          is_active := true }
      .ok ({ db with users := db.users ++ [u], clock := db.clock + 1 }, u)
    | some u =>
      if u.username != username || u.first_name != first_name then
        let u2 : User :=
          { u with username := username, first_name := first_name,
                   last_name := last_name, updated_at := db.clock }
        .ok ({ db with users := replaceUser db.users telegram_id u2,
                       clock := db.clock + 1 }, u2)
      else
        .ok (db, u)
  else .error ()

/-- Model of `GeminiService.save_message` (lines 52-60): pure insert, stamped with
the current clock. -/
def save_message (db : DB) (user : User) (message_type content : String)
    (message_id : Option Int) : Except Unit DB :=
  if db.available then
    .ok { db with
          conversations := db.conversations ++
            [{ user := toString user.telegram_id, message_type := message_type,
               content := content, timestamp := db.clock, message_id := message_id }],
          clock := db.clock + 1 }
  else .error ()

/-- Pure core of `GeminiService.get_conversation_context` (lines 62-67):
`order_by(-timestamp)` is the reverse of the filtered insertion-order list
(timestamps strictly increase along it); `if limit:` means Python truthiness,
so a limit of 0 behaves like no limit; the final `[::-1]` restores
chronological order. -/
def get_context_pure (conversations : List Conversation) (key : String)
    (limit : Option Nat) : List Conversation :=
  let q := (conversations.filter (fun c => c.user == key)).reverse
  let q2 := match limit with
            | none => q
            | some l => if l == 0 then q else q.take l
  q2.reverse

/-- Model of `GeminiService.get_conversation_context`: the store read raises iff the
store is unavailable. -/
def get_conversation_context (db : DB) (user : User) (limit : Option Nat) :
    Except Unit (List Conversation) :=
  if db.available then
    .ok (get_context_pure db.conversations (toString user.telegram_id) limit)
  else .error ()

/-- The `self.max_context_messages` window size (line 27). -/
def max_context_messages : Nat := 20

/-! ## Context-Aware Response Builder (`generate_response`, lines 69-130) -/

/-- The fixed apologetic fallback returned by the `except` clause of
`generate_response` (line 130). -/
def tech_difficulties : String :=
  "I\x27m experiencing some technical difficulties right now. Please try again later."

/-- Fallback used when `response.text` is falsy (line 120). -/
def empty_reply_fallback : String :=
  "I\x27m sorry, I couldn\x27t generate a response right now."

/-- The system instruction (lines 101-108); the inserted name is the first
truthy value among first_name, username, and the literal there. -/
def system_prompt (first_name username : Option String) : String :=
  "You are a helpful AI assistant integrated into a Telegram bot. " ++
  "Provide helpful, accurate, and concise responses. " ++
  "Be friendly and conversational. " ++
  "If asked about your capabilities, mention that you\x27re powered by Google Gemini AI and can process text, images, and files. " ++
  "The user\x27s name is " ++
  ((pyOptStr first_name).getD ((pyOptStr username).getD "there")) ++
  ". " ++
  "Keep responses relatively short for chat format unless detailed information is requested."

/-- Prompt composition (lines 94-113): render the last 10 context entries as
`Role: content` lines; with non-empty context use the
"Conversation history" form, otherwise the raw-message form. -/
def build_full_prompt (first_name username : Option String)
    (recent : List Conversation) (message : String) : String :=
  let context_messages :=
    (lastSlice 10 recent).map (fun m => capitalizeStr m.message_type ++ ": " ++ m.content)
  let context := String.intercalate "\n" context_messages
  if context != "" then
    system_prompt first_name username ++ "\n\nConversation history:\n" ++ context ++
      "\n\nPlease respond to the latest user message."
  else
    system_prompt first_name username ++ "\n\nUser message: " ++ message

/-- Result of `generate_response`: final store state, returned reply, and
the prompt passed to the completion client (`none` when the run failed
before reaching the completion call). -/
structure GenResult where
  db : DB
  reply : String
  prompt : Option String
deriving Repr, DecidableEq

/-- Model of `GeminiService.generate_response` (lines 69-130). Each store step can
raise; any raise is caught by the outer `except`, which returns the fixed
fallback while keeping every store write already made. -/
def generate_response (db : DB) (complete : String → CompletionResult)
    (telegram_id : Int) (message : String)
    (username first_name last_name : Option String)
    (message_id : Option Int) : GenResult :=
  match get_or_create_user db telegram_id username first_name last_name with
  | .error _ => { db := db, reply := tech_difficulties, prompt := none }
  | .ok (db1, user) =>
    match save_message db1 user "user" message message_id with
    | .error _ => { db := db1, reply := tech_difficulties, prompt := none }
    | .ok db2 =>
      match get_conversation_context db2 user (some max_context_messages) with
      | .error _ => { db := db2, reply := tech_difficulties, prompt := none }
      | .ok recent =>
        let full_prompt := build_full_prompt first_name username recent message
        match complete full_prompt with
        | .failure => { db := db2, reply := tech_difficulties, prompt := some full_prompt }
        | .success t =>
          let ai_response := (pyOptStr t).getD empty_reply_fallback
          match save_message db2 user "assistant" ai_response none with
          | .error _ => { db := db2, reply := tech_difficulties, prompt := some full_prompt }
          | .ok db3 => { db := db3, reply := ai_response, prompt := some full_prompt }

/-- Model of `GeminiService.clear_context` (lines 132-138): deletes the
conversation entries of the user; the count returned by the mongoengine
delete call is
discarded and the Python function returns `None` on every path (the second
component); store failure is swallowed by the `except` clause. -/
def clear_context (db : DB) (telegram_id : Int) : DB × Option Nat :=
  if db.available then
    ({ db with conversations :=
         db.conversations.filter (fun c => !(c.user == toString telegram_id)) }, none)
  else
    (db, none)

/-! ## Welcome message (`get_welcome_message`, lines 140-159) -/

/-- The welcome prompt (lines 143-148). -/
def welcome_prompt (username : Option String) : String :=
  "Generate a friendly welcome message for a new user " ++
  (match pyOptStr username with
   | some u => "named " ++ u
   | none => "") ++
  " who just started using " ++
  "an AI assistant Telegram bot. Keep it concise and welcoming. " ++
  "Mention that you\x27re powered by Google Gemini AI and can help with text, images, and files. Ask how you can help."

/-- The templated fallback welcome (lines 155, 159). -/
def welcome_fallback (username : Option String) : String :=
  "Welcome" ++
  (match pyOptStr username with
   | some u => " " ++ u
   | none => "") ++
  "! I\x27m an AI assistant powered by Google Gemini. I can help with text, images, and files. How can I help you today?"

/-- Model of `GeminiService.get_welcome_message` (lines 140-159). -/
def get_welcome_message (complete : String → CompletionResult)
    (username : Option String) : String :=
  match complete (welcome_prompt username) with
  | .failure => welcome_fallback username
  | .success t =>
    match pyOptStr t with
    | some s => s
    | none => welcome_fallback username

/-! ## Media Analysis Pipeline (`analyze_image`, `analyze_document`) -/

/-- Append a new FileMessage, returning its position so the later processed
update addresses the same document (mongoengine `save()` of a new document,
then `save()` again updates it in place by its id). -/
def fmSaveNew (db : DB) (fm : FileMessage) : Except Unit (DB × Nat) :=
  if db.available then
    .ok ({ db with file_messages := db.file_messages ++ [fm], clock := db.clock + 1 },
         db.file_messages.length)
  else .error ()

/-- In-place update of an existing FileMessage document. -/
def fmUpdate (db : DB) (idx : Nat) (fm : FileMessage) : Except Unit DB :=
  if db.available then
    .ok { db with file_messages := db.file_messages.set idx fm, clock := db.clock + 1 }
  else .error ()

/-- Fallback of the `except` clause of `analyze_image` (line 216). -/
def image_fallback : String :=
  "I\x27m sorry, I couldn\x27t analyze this image. Please try again later."

/-- Fallback when the vision response text is falsy (line 200). -/
def could_not_analyze_image : String := "I could not analyze this image."

/-- The vision prompt (lines 180-187), with the caption appended when it is
truthy. -/
def image_prompt (caption : Option String) : String :=
  "Analyze this image in detail and describe what you see. " ++
  "Include objects, people, setting, colors, mood, and any text if present. " ++
  "Be conversational and engaging in your description." ++
  (match pyOptStr caption with
   | some c => " The user also sent this caption: \x27" ++ c ++ "\x27"
   | none => "")

/-- Model of `GeminiService.analyze_image` (lines 161-216): create the photo record
unprocessed, call the vision model, mark the record processed together with
the analysis text, then append the synthetic user entry and the assistant
entry. Any raise is caught and yields the fixed image fallback. -/
def analyze_image (db : DB) (completeVision : String → CompletionResult)
    (telegram_id : Int) (file_id : String) (caption : Option String) : DB × String :=
  match get_or_create_user db telegram_id none none none with
  | .error _ => (db, image_fallback)
  | .ok (db1, user) =>
    let fm : FileMessage :=
      { user := toString user.telegram_id, file_id := file_id, file_type := "photo",
        file_name := none, file_size := none, mime_type := none, processed := false,
        analysis_result := none, timestamp := db1.clock }
    match fmSaveNew db1 fm with
    | .error _ => (db1, image_fallback)
    | .ok (db2, idx) =>
      match completeVision (image_prompt caption) with
      | .failure => (db2, image_fallback)
      | .success t =>
        let analysis := (pyOptStr t).getD could_not_analyze_image
        match fmUpdate db2 idx { fm with analysis_result := some analysis, processed := true } with
        | .error _ => (db2, image_fallback)
        | .ok db3 =>
          match save_message db3 user "user"
              ("[Sent an image" ++
                (match pyOptStr caption with
                 | some c => ": " ++ c
                 | none => "") ++ "]") none with
          | .error _ => (db3, image_fallback)
          | .ok db4 =>
            match save_message db4 user "assistant" analysis none with
            | .error _ => (db4, image_fallback)
            | .ok db5 => (db5, analysis)

/-- Fallback of the `except` clause of `analyze_document` (line 279). -/
def doc_fallback : String :=
  "I\x27m sorry, I couldn\x27t analyze this document. Please try again later."

/-- Message of the inner `except` of the text branch (line 256): produced
when reading the file raises or the completion call raises. -/
def read_fail_message (file_name : String) : String :=
  "I received your document \x27" ++ file_name ++
  "\x27 but couldn\x27t read its content. It might be in a format I can\x27t process yet."

/-- The text-document prompt (lines 242-245): content truncated to 4000
characters. -/
def doc_text_prompt (mime file_name content : String) : String :=
  "Analyze this " ++ mime ++
  " document and provide a helpful summary or analysis. " ++
  "The filename is \x27" ++ file_name ++ "\x27. Here\x27s the content:\n\n" ++
  content.take 4000

/-- Fallback when the document completion text is falsy (line 252). -/
def could_not_analyze_document : String := "I could not analyze this document."

/-- The unsupported-type message (line 263). -/
def unsupported_type_message (file_name : String) (mime_type : Option String) : String :=
  "I received your file \x27" ++ file_name ++ "\x27 (" ++
  ((pyOptStr mime_type).getD "unknown type") ++
  "). I can currently analyze text files and images. For other file types, please let me know what you\x27d like to know about it!"

/-- Common tail of the text and unsupported branches of `analyze_document`
(lines 265-275): mark the document record processed with the analysis text,
then append the two conversation entries and return the analysis. -/
def finish_document (db2 : DB) (user : User) (fm : FileMessage) (idx : Nat)
    (file_name analysis : String) : DB × String :=
  match fmUpdate db2 idx { fm with analysis_result := some analysis, processed := true } with
  | .error _ => (db2, doc_fallback)
  | .ok db3 =>
    match save_message db3 user "user" ("[Sent a file: " ++ file_name ++ "]") none with
    | .error _ => (db3, doc_fallback)
    | .ok db4 =>
      match save_message db4 user "assistant" analysis none with
      | .error _ => (db4, doc_fallback)
      | .ok db5 => (db5, analysis)

/-- Model of `GeminiService.analyze_document` (lines 218-279). `content` is
the downloaded file text when readable as UTF-8. The branch conditions are
the Python substring tests of the source (`mime_type` containing the
substring text, or the substring image) guarded by the truthiness of
`mime_type`. On the image branch the
source returns the result of `analyze_image` directly, so the document
record created above is never updated. -/
def analyze_document (db : DB) (complete completeVision : String → CompletionResult)
    (telegram_id : Int) (file_id : String) (content : Option String)
    (file_name : String) (mime_type : Option String) : DB × String :=
  match get_or_create_user db telegram_id none none none with
  | .error _ => (db, doc_fallback)
  | .ok (db1, user) =>
    let fm : FileMessage :=
      { user := toString user.telegram_id, file_id := file_id, file_type := "document",
        file_name := some file_name, file_size := none, mime_type := mime_type,
        processed := false, analysis_result := none, timestamp := db1.clock }
    match fmSaveNew db1 fm with
    | .error _ => (db1, doc_fallback)
    | .ok (db2, idx) =>
      match pyOptStr mime_type with
      | some m =>
        if strContains m "text" then
          let analysis :=
            match content with
            | none => read_fail_message file_name
            | some text =>
              match complete (doc_text_prompt m file_name text) with
              | .failure => read_fail_message file_name
              | .success t => (pyOptStr t).getD could_not_analyze_document
          finish_document db2 user fm idx file_name analysis
        else if strContains m "image" then
          analyze_image db2 completeVision telegram_id file_id none
        else
          finish_document db2 user fm idx file_name (unsupported_type_message file_name mime_type)
      | none =>
        finish_document db2 user fm idx file_name (unsupported_type_message file_name mime_type)

/-! ## Inbound update shapes (src/telegram_bot.py) -/

/-- The sender (`message["from"]`): `id` is present on every message the
claims exercise; the display fields are optional keys. -/
structure TgUser where
  id : Int
  username : Option String := none
  first_name : Option String := none
  last_name : Option String := none
deriving Repr, DecidableEq

/-- One photo size variant of a `photo` message. -/
structure PhotoSize where
  file_id : String
  file_size : Option Int := none
deriving Repr, DecidableEq

/-- The `document` object of a document message; every key optional. -/
structure TgDocument where
  file_id : Option String := none
  file_name : Option String := none
  mime_type : Option String := none
  file_size : Option Int := none
deriving Repr, DecidableEq, Inhabited

/-- One inbound Telegram message: the keys the pipeline inspects. A present
`photo` key carries the (possibly empty) list of size variants. -/
structure Message where
  chat_id : Int := 0
  message_id : Option Int := none
  fromUser : TgUser
  text : Option String := none
  photo : Option (List PhotoSize) := none
  document : Option TgDocument := none
  caption : Option String := none
deriving Repr, DecidableEq

/-- The observable outcome of a handler run: final store state, reply text,
and the number of `download_file` calls made. -/
structure HandleResult where
  db : DB
  reply : String
  downloads : Nat
deriving Repr, DecidableEq

/-! ## Telegram handlers (src/telegram_bot.py) -/

/-- Reply when the `photo` list is empty (line 77). -/
def no_photo_message : String :=
  "I didn\x27t receive any photo. Please try sending it again."

/-- Reply when the photo download fails (line 99). -/
def photo_download_fail : String :=
  "Sorry, I couldn\x27t download your image. Please try again."

/-- Python `max(photos, key=lambda p: p.get("file_size", 0))`: left fold
keeping the first maximum (replace only on strictly greater). -/
def largest_photo : PhotoSize → List PhotoSize → PhotoSize
  | best, [] => best
  | best, p :: ps =>
    largest_photo (if p.file_size.getD 0 > best.file_size.getD 0 then p else best) ps

/-- Model of `TelegramBot.handle_photo` (lines 68-110): empty size list short-circuits
before any download; otherwise download the largest variant and delegate to
`analyze_image`. -/
def handle_photo (db : DB) (completeVision : String → CompletionResult)
    (download : Option String → Download) (msg : Message) : HandleResult :=
  let photos := msg.photo.getD []
  let caption := msg.caption
  match photos with
  | [] => { db := db, reply := no_photo_message, downloads := 0 }
  | p :: ps =>
    let lp := largest_photo p ps
    match download (some lp.file_id) with
    | .fail => { db := db, reply := photo_download_fail, downloads := 1 }
    | .ok _ =>
      let r := analyze_image db completeVision msg.fromUser.id lp.file_id caption
      { db := r.1, reply := r.2, downloads := 1 }

/-- The fixed "too large" reply (line 126). -/
def too_large_message : String :=
  "Sorry, the file is too large. Please send files smaller than 20MB."

/-- Reply when the document download fails (line 146). -/
def doc_download_fail : String :=
  "Sorry, I couldn\x27t download your file. Please try again."

/-- The size ceiling of `handle_document` (line 125): 20 * 1024 * 1024. -/
def size_ceiling : Int := 20 * 1024 * 1024

/-- Model of `TelegramBot.handle_document` (lines 112-157): reject sizes strictly
above the ceiling before downloading; otherwise download and delegate to
`analyze_document` with the file content. -/
def handle_document (db : DB) (complete completeVision : String → CompletionResult)
    (download : Option String → Download) (msg : Message) : HandleResult :=
  let doc := msg.document.getD {}
  let file_id := doc.file_id
  let file_name := doc.file_name.getD "document"
  let mime_type := doc.mime_type
  let file_size := doc.file_size.getD 0
  if file_size > size_ceiling then
    { db := db, reply := too_large_message, downloads := 0 }
  else
    match download file_id with
    | .fail => { db := db, reply := doc_download_fail, downloads := 1 }
    | .ok content =>
      let r := analyze_document db complete completeVision msg.fromUser.id
                 (file_id.getD "") content file_name mime_type
      { db := r.1, reply := r.2, downloads := 1 }

/-- The static help text of `/help` (lines 179-196). -/
def help_text : String :=
  "🤖 *AI Assistant Bot Help*\n\n" ++
  "*Available Commands:*\n" ++
  "/start - Start a conversation with the bot\n" ++
  "/help - Show this help message\n" ++
  "/clear - Clear conversation history\n\n" ++
  "*Features:*\n" ++
  "• Ask me anything and I\x27ll provide intelligent responses\n" ++
  "• I remember our conversation context across sessions\n" ++
  "• Send me images and I\x27ll analyze them\n" ++
  "• Send me text files and I\x27ll read and analyze them\n" ++
  "• Powered by Google Gemini AI\n\n" ++
  "*Examples:*\n" ++
  "• \"What\x27s the weather like?\"\n" ++
  "• \"Explain quantum physics simply\"\n" ++
  "• Send a photo and ask \"What do you see?\"\n" ++
  "• Upload a text document for analysis"

/-- The `/clear` confirmation (line 200), returned regardless of whether the
deletion succeeded. -/
def clear_success_message : String :=
  "✅ Conversation history cleared! We can start fresh."

/-- The unknown-command reply (lines 204-206). -/
def unknown_command_message : String :=
  "❓ Unknown command. Use /help to see available commands or just send me a message to chat!"

/-- Model of `TelegramBot.handle_command` (lines 159-206): branch conditions
are the `text.startswith(...)` prefix tests of the source, in source
order. -/
def handle_command (db : DB) (complete : String → CompletionResult)
    (msg : Message) : DB × String :=
  let text := msg.text.getD ""
  let username := msg.fromUser.first_name.getD "there"
  let telegram_id := msg.fromUser.id
  if startsWithStr text "/start" then
    (db, get_welcome_message complete (some username))
  else if startsWithStr text "/help" then
    (db, help_text)
  else if startsWithStr text "/clear" then
    ((clear_context db telegram_id).1, clear_success_message)
  else
    (db, unknown_command_message)

/-- The prompt-for-input reply for whitespace-only text (line 288). -/
def prompt_for_input_message : String :=
  "Please send me a message and I\x27ll be happy to help! 😊"

/-- Model of `TelegramBot.process_message` (lines 242-292): classify photo, document,
command, non-blank text, blank text, in source order. Note the source
defaults `first_name` to "User" before calling `generate_response`. -/
def process_message (db : DB) (complete completeVision : String → CompletionResult)
    (download : Option String → Download) (msg : Message) : HandleResult :=
  if msg.photo.isSome then
    handle_photo db completeVision download msg
  else if msg.document.isSome then
    handle_document db complete completeVision download msg
  else
    let text := msg.text.getD ""
    if startsWithStr text "/" then
      let r := handle_command db complete msg
      { db := r.1, reply := r.2, downloads := 0 }
    else if trimStr text != "" then
      let r := generate_response db complete msg.fromUser.id text
                 msg.fromUser.username (some (msg.fromUser.first_name.getD "User"))
                 msg.fromUser.last_name msg.message_id
      { db := r.db, reply := r.reply, downloads := 0 }
    else
      { db := db, reply := prompt_for_input_message, downloads := 0 }

/-- An inbound webhook update: a `message` key, an `edited_message` key, or
any other shape. -/
inductive Update where
  | message (m : Message)
  | edited_message (m : Message)
  | other
deriving Repr

/-- Outcome of `TelegramBot.handle_webhook_update`: final store state, the
boolean the method returns, and the text passed to `send_message` (when a
send was attempted). -/
structure BotResult where
  db : DB
  okFlag : Bool
  sent : Option String
deriving Repr, DecidableEq

/-- Model of `TelegramBot.handle_webhook_update` (lines 294-349): messages and edited
messages are processed identically, but the edited reply is prefixed; the
method returns the `send_message` outcome (`sendOk`); unrecognized shapes
are acknowledged with True and no processing. -/
def handle_webhook_update (db : DB) (complete completeVision : String → CompletionResult)
    (download : Option String → Download) (sendOk : Bool) (u : Update) : BotResult :=
  match u with
  | .message m =>
    let r := process_message db complete completeVision download m
    { db := r.db, okFlag := sendOk, sent := some r.reply }
  | .edited_message m =>
    let r := process_message db complete completeVision download m
    { db := r.db, okFlag := sendOk, sent := some ("📝 *Updated response:*\n\n" ++ r.reply) }
  | .other =>
    { db := db, okFlag := true, sent := none }

/-- Outcome of the Flask `webhook` endpoint: final store state, HTTP status
of the acknowledgment, and the text sent to the user (if any). -/
structure WebhookResult where
  db : DB
  status : Nat
  sent : Option String
deriving Repr, DecidableEq

/-- The `webhook` endpoint (src/app.py lines 166-192): empty payload → 400;
otherwise dispatch to the bot and acknowledge 200 on True, 500 on False. -/
def webhook (db : DB) (complete completeVision : String → CompletionResult)
    (download : Option String → Download) (sendOk : Bool)
    (u : Option Update) : WebhookResult :=
  match u with
  | none => { db := db, status := 400, sent := none }
  | some up =>
    let r := handle_webhook_update db complete completeVision download sendOk up
    { db := r.db, status := if r.okFlag then 200 else 500, sent := r.sent }

/-! ## Observation helpers and well-formedness -/

/-- The content of a conversation entry without its timestamp (timestamps
are clock readings and vary with the path taken). -/
def convData (c : Conversation) : String × String × String × Option Int :=
  (c.user, c.message_type, c.content, c.message_id)

/-- The processing-relevant view of a media record: owner, kind, processed
flag, and whether the analysis text is set. -/
def fmView (f : FileMessage) : String × String × Bool × Bool :=
  (f.user, f.file_type, f.processed, f.analysis_result.isSome)

/-- Store well-formedness: timestamps strictly increase along the stored
conversation list, which every write maintains (each insert stamps the
current clock and bumps it). -/
def dbWF (db : DB) : Prop :=
  db.conversations.Pairwise (fun a b => a.timestamp < b.timestamp)

/-- A sequence of entries is in non-decreasing timestamp order. -/
def chronological (l : List Conversation) : Prop :=
  l.Pairwise (fun a b => a.timestamp ≤ b.timestamp)

/-! ## Concrete fixtures for the scenario theorems -/

/-- An empty, reachable store. -/
def dbEmpty : DB := { users := [], conversations := [], file_messages := [], clock := 0 }

/-- A completion service that always succeeds with the text "Hi!". -/
def okOracle : String → CompletionResult := fun _ => .success (some "Hi!")

/-- A completion service that always raises. -/
def failOracle : String → CompletionResult := fun _ => .failure

/-- A download that always fails. -/
def noDownload : Option String → Download := fun _ => .fail

/-- A download that always succeeds with a small text payload. -/
def someDownload : Option String → Download := fun _ => .ok (some "file content")

/-- A store holding one prior text exchange (two entries) of user 7. -/
def dbTwo : DB :=
  { users := [],
    conversations :=
      [{ user := "7", message_type := "user", content := "hi", timestamp := 0, message_id := none },
       { user := "7", message_type := "assistant", content := "hello", timestamp := 1, message_id := none }],
    file_messages := [], clock := 2 }

/-- The same store with the document store unreachable. -/
def dbDown : DB := { dbTwo with available := false }

/-- The user record of user 7 as `get_or_create_user` would create it. -/
def uSeven : User :=
  { telegram_id := 7, username := none, first_name := none, last_name := none,
    created_at := 0, updated_at := 0, is_active := true }

/-- An existing user record whose stored last name is "a". -/
def uStale : User :=
  { telegram_id := 1, username := some "u", first_name := some "f", last_name := some "a",
    created_at := 0, updated_at := 0, is_active := true }

/-- A store holding only `uStale`. -/
def dbStale : DB := { users := [uStale], conversations := [], file_messages := [], clock := 5 }

/-- Plain text message "hey" from user 7. -/
def msgHello7 : Message := { fromUser := { id := 7, first_name := some "Al" }, text := some "hey" }

/-- The `/clear` command from user 7. -/
def msgClear7 : Message := { fromUser := { id := 7 }, text := some "/clear" }

/-- The text "/clearly" from user 7 (extends the command name `/clear`). -/
def msgClearly7 : Message := { fromUser := { id := 7 }, text := some "/clearly" }

/-- The text "/started" from user 7 (extends the command name `/start`). -/
def msgStarted7 : Message := { fromUser := { id := 7, first_name := some "Bob" }, text := some "/started" }

/-- A message carrying a `photo` key with an empty list of size variants. -/
def msgNoPhoto9 : Message := { fromUser := { id := 9 }, photo := some [] }

/-- A document message reporting 20 MiB + 1 byte. -/
def msgDocBig : Message :=
  { fromUser := { id := 3 },
    document := some { file_id := some "d1", file_name := some "a.txt",
                       mime_type := some "text/plain", file_size := some (20 * 1024 * 1024 + 1) } }

/-- A document message reporting exactly 20 MiB. -/
def msgDocExact : Message :=
  { fromUser := { id := 3 },
    document := some { file_id := some "d1", file_name := some "a.txt",
                       mime_type := some "text/plain", file_size := some (20 * 1024 * 1024) } }

end Bot

namespace Bot

/-! ## Helper lemmas -/

theorem append_left_ne_empty (s t : String) (h : s.data ≠ []) : s ++ t ≠ "" := by
  intro he
  have hd := congrArg String.data he
  rw [String.data_append] at hd
  simp only [List.append_eq_nil] at hd
  exact h hd.1

theorem isPrefixCL_self_append (p t : List Char) : isPrefixCL p (p ++ t) = true := by
  induction p with
  | nil => rfl
  | cons a as ih => simp [isPrefixCL, ih]

theorem isPrefixCL_extend (p : List Char) (s t : List Char)
    (h : isPrefixCL p s = true) : isPrefixCL p (s ++ t) = true := by
  induction p generalizing s with
  | nil => rfl
  | cons a as ih =>
    cases s with
    | nil => simp [isPrefixCL] at h
    | cons b bs =>
      simp only [isPrefixCL, Bool.and_eq_true] at h
      simp only [List.cons_append, isPrefixCL, Bool.and_eq_true]
      exact ⟨h.1, ih bs h.2⟩

theorem containsCL_of_prefixCL (p s : List Char) (h : isPrefixCL p s = true) :
    containsCL p s = true := by
  cases s with
  | nil => exact h
  | cons c cs => simp [containsCL, h]

theorem containsCL_extend (p s t : List Char) (h : containsCL p s = true) :
    containsCL p (s ++ t) = true := by
  induction s with
  | nil =>
    cases p with
    | nil =>
      apply containsCL_of_prefixCL
      rfl
    | cons a as => simp [containsCL, isPrefixCL] at h
  | cons c cs ih =>
    simp only [containsCL, Bool.or_eq_true] at h
    rcases h with h | h
    · exact containsCL_of_prefixCL _ _ (by simpa using isPrefixCL_extend p (c :: cs) t h)
    · simp only [List.cons_append, containsCL, Bool.or_eq_true]
      exact Or.inr (ih h)

theorem containsCL_append_left (p a s : List Char) (h : containsCL p s = true) :
    containsCL p (a ++ s) = true := by
  induction a with
  | nil => exact h
  | cons c cs ih =>
    simp only [List.cons_append, containsCL, Bool.or_eq_true]
    exact Or.inr ih

theorem strContains_append_right (s t pat : String) (h : strContains s pat = true) :
    strContains (s ++ t) pat = true := by
  unfold strContains at h ⊢
  rw [String.data_append]
  exact containsCL_extend _ _ _ h

theorem strContains_append_left (s t pat : String) (h : strContains t pat = true) :
    strContains (s ++ t) pat = true := by
  unfold strContains at h ⊢
  rw [String.data_append]
  exact containsCL_append_left _ _ _ h

/-- Successful `get_or_create_user` run: the store stays reachable, the
conversation and media collections are untouched, and the returned user
carries the requested id. -/
theorem gocu_spec (db : DB) (tid : Int) (un fn ln : Option String)
    (hav : db.available = true) :
    ∃ db1 u, get_or_create_user db tid un fn ln = .ok (db1, u) ∧
      db1.conversations = db.conversations ∧
      db1.file_messages = db.file_messages ∧
      db1.available = true ∧
      u.telegram_id = tid := by
  unfold get_or_create_user
  rw [if_pos hav]
  cases hfind : db.users.find? (fun u => u.telegram_id == tid) with
  | none => exact ⟨_, _, rfl, rfl, rfl, hav, rfl⟩
  | some u =>
    have hutid : u.telegram_id = tid := by simpa using List.find?_some hfind
    dsimp only
    by_cases hcond : (u.username != un || u.first_name != fn) = true
    · rw [if_pos hcond]
      exact ⟨_, _, rfl, rfl, rfl, hav, hutid⟩
    · rw [if_neg hcond]
      exact ⟨_, _, rfl, rfl, rfl, hav, hutid⟩

theorem find?_replaceUser (l : List User) (tid : Int) (u u2 : User)
    (hfind : l.find? (fun v => v.telegram_id == tid) = some u)
    (hu2 : u2.telegram_id = tid) :
    (replaceUser l tid u2).find? (fun v => v.telegram_id == tid) = some u2 := by
  induction l with
  | nil => simp [List.find?] at hfind
  | cons v vs ih =>
    by_cases hv : (v.telegram_id == tid) = true
    · simp only [replaceUser, if_pos hv]
      rw [List.find?_cons_of_pos _ (by simpa using hu2)]
    · simp only [replaceUser, if_neg hv]
      rw [List.find?_cons_of_neg _ (by simpa using hv)] at hfind
      rw [List.find?_cons_of_neg _ (by simpa using hv)]
      exact ih hfind

/-- Setting the position just past `l` in `l ++ [a]` replaces `a`. -/
theorem set_append_length (l : List α) (a b : α) :
    (l ++ [a]).set l.length b = l ++ [b] := by
  induction l with
  | nil => rfl
  | cons x xs ih => simp [List.set, ih]

/-- The pure context read is chronological, from store well-formedness. -/
theorem get_context_pure_chronological (l : List Conversation) (key : String)
    (lim : Option Nat) (hwf : l.Pairwise (fun a b => a.timestamp < b.timestamp)) :
    chronological (get_context_pure l key lim) := by
  have hf : (l.filter (fun c => c.user == key)).Pairwise (fun a b => a.timestamp < b.timestamp) :=
    List.Pairwise.sublist (List.filter_sublist l) hwf
  unfold get_context_pure chronological
  have hsub : ∀ q2 : List Conversation,
      q2.Sublist ((l.filter (fun c => c.user == key)).reverse) →
      q2.reverse.Pairwise (fun a b => a.timestamp ≤ b.timestamp) := by
    intro q2 hq2
    have hq3 : q2.reverse.Sublist (l.filter (fun c => c.user == key)) := by
      have := hq2.reverse
      rwa [List.reverse_reverse] at this
    exact (List.Pairwise.sublist hq3 hf).imp (fun h => le_of_lt h)
  cases lim with
  | none => exact hsub _ (List.Sublist.refl _)
  | some n =>
    by_cases hn : (n == 0) = true
    · simp only [hn, if_true]
      exact hsub _ (List.Sublist.refl _)
    · simp only [hn, Bool.false_eq_true, if_false]
      exact hsub _ (List.take_sublist _ _)

/-- Bounded length of the context read for a truthy limit. -/
theorem get_context_pure_length (l : List Conversation) (key : String) (lim : Nat)
    (hlim : lim ≠ 0) :
    (get_context_pure l key (some lim)).length ≤ lim := by
  unfold get_context_pure
  have hn : (lim == 0) = false := by simpa using hlim
  simp only [hn, Bool.false_eq_true, if_false, List.length_reverse, List.length_take]
  omega

/-- A limit of 0 is Python-falsy: the read behaves as if unbounded. -/
theorem get_context_pure_zero (l : List Conversation) (key : String) :
    get_context_pure l key (some 0) = get_context_pure l key none := by
  simp [get_context_pure]

end Bot

namespace Bot

/-- C10: a present `photo` key with an empty variant list yields the fixed
fixed no-photo reply, with no download call, no media record and
no conversation write (the store is returned unchanged). -/
theorem C10_empty_photo_list (db : DB) (cv : String → CompletionResult)
    (dl : Option String → Download) (m : Message) (hp : m.photo = some []) :
    handle_photo db cv dl m = { db := db, reply := no_photo_message, downloads := 0 } := by
  unfold handle_photo
  rw [hp]
  rfl

/-- Witness for C10 at a concrete empty-photo message. -/
theorem C10_empty_photo_list_witness :
    handle_photo dbEmpty okOracle noDownload msgNoPhoto9 =
      { db := dbEmpty, reply := no_photo_message, downloads := 0 } :=
  C10_empty_photo_list dbEmpty okOracle noDownload msgNoPhoto9 rfl

/-- C9 counterexample: command matching uses `startswith`, so "/clearly" is
handled as `/clear` — it deletes the stored history and returns the clear
confirmation, not the unknown-command reply; likewise "/started" is not
answered with the unknown-command reply. -/
theorem C9_counterexample :
    (handle_command dbTwo okOracle msgClearly7).2 = clear_success_message ∧
    (handle_command dbTwo okOracle msgClearly7).2 ≠ unknown_command_message ∧
    (handle_command dbTwo okOracle msgClearly7).1.conversations = [] ∧
    (handle_command dbTwo okOracle msgStarted7).2 ≠ unknown_command_message := by
  decide

/-- C9 amended: the three commands are recognized by `startswith` prefix
tests, so any text merely extending a command name is treated as that
command; the fixed unknown-command reply, with no persistence, is returned
exactly for texts extending none of `/start`, `/help`, `/clear`. -/
theorem C9_unknown_command (db : DB) (c : String → CompletionResult)
    (m : Message) (t : String) (ht : m.text = some t)
    (h1 : startsWithStr t "/start" = false) (h2 : startsWithStr t "/help" = false)
    (h3 : startsWithStr t "/clear" = false) :
    handle_command db c m = (db, unknown_command_message) := by
  unfold handle_command
  rw [ht]
  simp [h1, h2, h3]

/-- Witness for the amended C9 at the concrete unknown command "/foo". -/
theorem C9_unknown_command_witness :
    handle_command dbTwo okOracle { fromUser := { id := 7 }, text := some "/foo" } =
      (dbTwo, unknown_command_message) :=
  C9_unknown_command dbTwo okOracle _ "/foo" rfl (by decide) (by decide) (by decide)

end Bot

namespace Bot

/-- C8: a document reporting a size strictly above 20 MiB is answered with
the fixed "too large" reply before any download call (zero downloads, store
unchanged, hence no MediaRecord); any size up to and including exactly
20 MiB passes the check and the download is attempted; on a successful
download the run proceeds to `analyze_document`. -/
theorem C8_size_ceiling (db : DB) (c cv : String → CompletionResult)
    (dl : Option String → Download) (m : Message) (doc : TgDocument)
    (content : Option String) (hdoc : m.document = some doc) :
    (doc.file_size.getD 0 > size_ceiling →
      handle_document db c cv dl m = { db := db, reply := too_large_message, downloads := 0 }) ∧
    (doc.file_size.getD 0 ≤ size_ceiling →
      (handle_document db c cv dl m).downloads = 1) ∧
    (doc.file_size.getD 0 ≤ size_ceiling → dl doc.file_id = .ok content →
      handle_document db c cv dl m =
        { db := (analyze_document db c cv m.fromUser.id (doc.file_id.getD "") content
                   (doc.file_name.getD "document") doc.mime_type).1,
          reply := (analyze_document db c cv m.fromUser.id (doc.file_id.getD "") content
                   (doc.file_name.getD "document") doc.mime_type).2,
          downloads := 1 }) := by
  unfold handle_document
  rw [hdoc]
  dsimp only [Option.getD]
  refine ⟨?_, ?_, ?_⟩
  · intro hbig
    rw [if_pos hbig]
  · intro hle
    rw [if_neg (by omega)]
    cases dl doc.file_id <;> rfl
  · intro hle hdl
    rw [if_neg (by omega), hdl]

/-- Witness for C8: the exactly-20 MiB document is accepted (one download
call, delegation to `analyze_document`), instantiated concretely. -/
theorem C8_size_ceiling_witness :
    ((20 * 1024 * 1024 + 1 : Int) > size_ceiling →
      handle_document dbEmpty okOracle okOracle someDownload msgDocBig =
        { db := dbEmpty, reply := too_large_message, downloads := 0 }) ∧
    ((20 * 1024 * 1024 + 1 : Int) ≤ size_ceiling →
      (handle_document dbEmpty okOracle okOracle someDownload msgDocBig).downloads = 1) ∧
    ((20 * 1024 * 1024 + 1 : Int) ≤ size_ceiling →
      someDownload (some "d1") = .ok (some "file content") →
      handle_document dbEmpty okOracle okOracle someDownload msgDocBig =
        { db := (analyze_document dbEmpty okOracle okOracle 3 "d1" (some "file content")
                   "a.txt" (some "text/plain")).1,
          reply := (analyze_document dbEmpty okOracle okOracle 3 "d1" (some "file content")
                   "a.txt" (some "text/plain")).2,
          downloads := 1 }) :=
  C8_size_ceiling dbEmpty okOracle okOracle someDownload msgDocBig _ (some "file content") rfl

/-- C2 counterexample: after one stored text exchange (two entries) the
Python `clear_context` returns `None`, not the number of removed entries
(neither the exchange count 1 nor the entry count 2). -/
theorem C2_counterexample :
    (clear_context dbTwo 7).2 ≠ some 1 ∧ (clear_context dbTwo 7).2 ≠ some 2 := by
  decide

/-- C2 amended: the `/clear` deletion removes every conversation entry of
the user and leaves entries of other users in place, and a second clear changes
nothing (idempotence); however the operation returns `None` on every path —
no removed-entry count is reported to the caller. -/
theorem C2_clear_all (db : DB) (tid : Int) (hav : db.available = true) :
    (clear_context db tid).2 = none ∧
    ((clear_context db tid).1.conversations.filter (fun c => c.user == toString tid) = []) ∧
    (∀ c ∈ db.conversations, (c.user == toString tid) = false →
       c ∈ (clear_context db tid).1.conversations) ∧
    clear_context (clear_context db tid).1 tid = ((clear_context db tid).1, none) := by
  unfold clear_context
  rw [if_pos hav]
  dsimp only
  refine ⟨rfl, ?_, ?_, ?_⟩
  · rw [List.filter_eq_nil_iff]
    intro c hc
    have := (List.mem_filter.mp hc).2
    simp only [Bool.not_eq_eq_eq_not, Bool.not_true] at this
    simp [this]
  · intro c hc hne
    exact List.mem_filter.mpr ⟨hc, by simp [hne]⟩
  · rw [if_pos hav]
    have hself : (db.conversations.filter (fun c => !(c.user == toString tid))).filter
        (fun c => !(c.user == toString tid)) =
        db.conversations.filter (fun c => !(c.user == toString tid)) :=
      List.filter_eq_self.mpr (fun a ha => (List.mem_filter.mp ha).2)
    rw [hself]

/-- Witness for the amended C2 at the two-entry store of user 7. -/
theorem C2_clear_all_witness :
    (clear_context dbTwo 7).2 = none ∧
    ((clear_context dbTwo 7).1.conversations.filter (fun c => c.user == toString (7:Int)) = []) ∧
    (∀ c ∈ dbTwo.conversations, (c.user == toString (7:Int)) = false →
       c ∈ (clear_context dbTwo 7).1.conversations) ∧
    clear_context (clear_context dbTwo 7).1 7 = ((clear_context dbTwo 7).1, none) :=
  C2_clear_all dbTwo 7 rfl

end Bot

namespace Bot

/-- C3 counterexample: the stored record has last name "a"; the inbound
profile differs only in last name ("b"), and `get_or_create_user` leaves the
record entirely unchanged — stale last name kept, updated-at untouched. -/
theorem C3_counterexample :
    get_or_create_user dbStale 1 (some "u") (some "f") (some "b") = .ok (dbStale, uStale) ∧
    uStale.last_name = some "a" ∧ uStale.updated_at = 0 :=
  ⟨rfl, rfl, rfl⟩

/-- C3 amended: the overwrite of all display fields (with updated-at set to
now) happens exactly when `username` or `first_name` differs; when both of
those match, the record is returned unchanged even if `last_name` differs. -/
theorem C3_upsert_condition (db : DB) (tid : Int) (un fn ln : Option String) (u : User)
    (hav : db.available = true)
    (hfind : db.users.find? (fun v => v.telegram_id == tid) = some u) :
    ((u.username != un || u.first_name != fn) = false →
      get_or_create_user db tid un fn ln = .ok (db, u)) ∧
    ((u.username != un || u.first_name != fn) = true →
      ∃ db1,
        get_or_create_user db tid un fn ln =
          .ok (db1, { u with username := un, first_name := fn, last_name := ln,
                             updated_at := db.clock }) ∧
        db1.users.find? (fun v => v.telegram_id == tid) =
          some { u with username := un, first_name := fn, last_name := ln,
                        updated_at := db.clock } ∧
        db1.conversations = db.conversations ∧
        db1.available = true) := by
  have hutid : u.telegram_id = tid := by simpa using List.find?_some hfind
  unfold get_or_create_user
  rw [if_pos hav, hfind]
  dsimp only
  constructor
  · intro hcond
    rw [if_neg (by simp [hcond])]
  · intro hcond
    rw [if_pos hcond]
    exact ⟨_, rfl, find?_replaceUser db.users tid u _ hfind hutid, rfl, hav⟩

/-- Witness for the amended C3: a differing username triggers the overwrite
of all three display fields and of updated-at. -/
theorem C3_upsert_condition_witness :
    ∃ db1,
      get_or_create_user dbStale 1 (some "u2") (some "f") (some "b") =
        .ok (db1, { uStale with username := some "u2", first_name := some "f",
                                last_name := some "b", updated_at := dbStale.clock }) ∧
      db1.users.find? (fun v => v.telegram_id == (1:Int)) =
        some { uStale with username := some "u2", first_name := some "f",
                           last_name := some "b", updated_at := dbStale.clock } ∧
      db1.conversations = dbStale.conversations ∧
      db1.available = true :=
  (C3_upsert_condition dbStale 1 (some "u2") (some "f") (some "b") uStale rfl rfl).2 rfl

/-- C7 counterexample: with limit 0 the read returns all stored entries of
the user (Python `if limit:` treats 0 as falsy), not the empty sequence. -/
theorem C7_counterexample :
    get_conversation_context dbTwo uSeven (some 0) = .ok dbTwo.conversations ∧
    dbTwo.conversations.length = 2 :=
  ⟨rfl, rfl⟩

/-- C7 amended: for a truthy limit the read returns at most `limit` entries
in non-decreasing timestamp order (newest-first fetch bounded by the limit,
then reversed); a limit of 0, being Python-falsy, behaves as "no limit" and
returns all entries of the user chronologically. -/
theorem C7_context_read (db : DB) (u : User) (lim : Nat)
    (hav : db.available = true) (hwf : dbWF db) :
    ∃ res, get_conversation_context db u (some lim) = .ok res ∧
      chronological res ∧
      (lim ≠ 0 → res.length ≤ lim) ∧
      (lim = 0 → res = get_context_pure db.conversations (toString u.telegram_id) none) := by
  have hread : get_conversation_context db u (some lim) =
      .ok (get_context_pure db.conversations (toString u.telegram_id) (some lim)) := by
    unfold get_conversation_context
    rw [if_pos hav]
  refine ⟨_, hread, get_context_pure_chronological _ _ _ hwf,
          fun h => get_context_pure_length _ _ _ h, fun h => ?_⟩
  subst h
  exact get_context_pure_zero _ _

/-- Witness for the amended C7 at the two-entry store with limit 1. -/
theorem C7_context_read_witness :
    ∃ res, get_conversation_context dbTwo uSeven (some 1) = .ok res ∧
      chronological res ∧
      ((1:Nat) ≠ 0 → res.length ≤ 1) ∧
      ((1:Nat) = 0 → res = get_context_pure dbTwo.conversations (toString uSeven.telegram_id) none) :=
  C7_context_read dbTwo uSeven 1 rfl (by unfold dbWF; decide)

end Bot

namespace Bot

/-- C5 counterexample: with the store unreachable, `/clear` still yields the
fixed success confirmation, nothing is deleted, and the webhook acknowledges
with a 200-style success — store unavailability is not fatal at the
boundary. -/
theorem C5_counterexample :
    (webhook dbDown okOracle okOracle noDownload true (some (.message msgClear7))).status = 200 ∧
    (webhook dbDown okOracle okOracle noDownload true (some (.message msgClear7))).sent =
      some clear_success_message ∧
    (webhook dbDown okOracle okOracle noDownload true (some (.message msgClear7))).db.conversations =
      dbTwo.conversations :=
  ⟨rfl, rfl, rfl⟩

/-- C5 amended: store failures are swallowed inside the service layer: with
the store unreachable, plain text handling returns the fixed apologetic
fallback and `/clear` handling returns the fixed success confirmation
(without deleting anything), both sent as ordinary replies; the webhook
acknowledgment depends only on the outbound send, not on store health. -/
theorem C5_store_down (db : DB) (c cv : String → CompletionResult)
    (dl : Option String → Download) (sendOk : Bool) (m : Message) (t : String)
    (hdown : db.available = false)
    (hp : m.photo = none) (hd : m.document = none) (ht : m.text = some t) :
    (startsWithStr t "/" = false → trimStr t ≠ "" →
      webhook db c cv dl sendOk (some (.message m)) =
        { db := db, status := if sendOk then 200 else 500, sent := some tech_difficulties }) ∧
    (startsWithStr t "/" = true → startsWithStr t "/start" = false →
     startsWithStr t "/help" = false → startsWithStr t "/clear" = true →
      webhook db c cv dl sendOk (some (.message m)) =
        { db := db, status := if sendOk then 200 else 500, sent := some clear_success_message }) := by
  have hpm_text : startsWithStr t "/" = false → trimStr t ≠ "" →
      process_message db c cv dl m = { db := db, reply := tech_difficulties, downloads := 0 } := by
    intro h1 h2
    unfold process_message
    rw [hp, hd, ht]
    rw [if_neg (by simp), if_neg (by simp)]
    dsimp only [Option.getD]
    rw [if_neg (by simp [h1])]
    rw [if_pos (show (trimStr t != "") = true by simp [bne_iff_ne]; exact h2)]
    unfold generate_response get_or_create_user
    rw [if_neg (by simp [hdown])]
  have hpm_clear : startsWithStr t "/" = true → startsWithStr t "/start" = false →
      startsWithStr t "/help" = false → startsWithStr t "/clear" = true →
      process_message db c cv dl m = { db := db, reply := clear_success_message, downloads := 0 } := by
    intro h0 h1 h2 h3
    unfold process_message
    rw [hp, hd, ht]
    rw [if_neg (by simp), if_neg (by simp)]
    dsimp only [Option.getD]
    rw [if_pos h0]
    unfold handle_command
    rw [ht]
    dsimp only [Option.getD]
    rw [if_neg (by simp [h1]), if_neg (by simp [h2]), if_pos h3]
    unfold clear_context
    rw [if_neg (by simp [hdown])]
  constructor
  · intro h1 h2
    unfold webhook handle_webhook_update
    dsimp only
    rw [hpm_text h1 h2]
  · intro h0 h1 h2 h3
    unfold webhook handle_webhook_update
    dsimp only
    rw [hpm_clear h0 h1 h2 h3]

/-- Witness for the amended C5 at a concrete text message and unreachable
store. -/
theorem C5_store_down_witness :
    (startsWithStr "hey" "/" = false → trimStr "hey" ≠ "" →
      webhook dbDown okOracle okOracle noDownload true (some (.message msgHello7)) =
        { db := dbDown, status := if true then 200 else 500, sent := some tech_difficulties }) ∧
    (startsWithStr "hey" "/" = true → startsWithStr "hey" "/start" = false →
     startsWithStr "hey" "/help" = false → startsWithStr "hey" "/clear" = true →
      webhook dbDown okOracle okOracle noDownload true (some (.message msgHello7)) =
        { db := dbDown, status := if true then 200 else 500, sent := some clear_success_message }) :=
  C5_store_down dbDown okOracle okOracle noDownload true msgHello7 "hey" rfl rfl rfl rfl

end Bot

namespace Bot

/-- C6: with an always-failing completion service, the reply is the fixed
apologetic fallback and the `user`-role entry appended in step 2 stays
persisted with no `assistant` entry (nothing is rolled back); and when even
the store is unreachable the same fallback is returned with no writes. -/
theorem C6_fallback_keeps_user_entry (db : DB) (complete : String → CompletionResult)
    (tid : Int) (message : String) (un fn ln : Option String) (mid : Option Int)
    (hfail : ∀ p, complete p = .failure) :
    (db.available = true →
      (generate_response db complete tid message un fn ln mid).reply = tech_difficulties ∧
      (generate_response db complete tid message un fn ln mid).db.conversations.map convData =
        db.conversations.map convData ++ [(toString tid, "user", message, mid)]) ∧
    (db.available = false →
      generate_response db complete tid message un fn ln mid =
        { db := db, reply := tech_difficulties, prompt := none }) := by
  constructor
  · intro hav
    obtain ⟨db1, u, hgocu, hconv, hfm, hav1, hutid⟩ := gocu_spec db tid un fn ln hav
    unfold generate_response
    rw [hgocu]
    dsimp only
    unfold save_message
    rw [if_pos hav1]
    dsimp only
    unfold get_conversation_context
    dsimp only
    rw [if_pos hav1]
    dsimp only
    rw [hfail _]
    dsimp only
    refine ⟨rfl, ?_⟩
    simp [hconv, hutid, convData]
  · intro hdown
    unfold generate_response get_or_create_user
    rw [if_neg (by simp [hdown])]

/-- Witness for C6 at the empty store and the always-failing completion. -/
theorem C6_fallback_keeps_user_entry_witness :
    (dbEmpty.available = true →
      (generate_response dbEmpty failOracle 1 "Hello" none (some "Alice") none (some 42)).reply =
        tech_difficulties ∧
      (generate_response dbEmpty failOracle 1 "Hello" none (some "Alice") none (some 42)).db.conversations.map convData =
        dbEmpty.conversations.map convData ++ [(toString (1:Int), "user", "Hello", some 42)]) ∧
    (dbEmpty.available = false →
      generate_response dbEmpty failOracle 1 "Hello" none (some "Alice") none (some 42) =
        { db := dbEmpty, reply := tech_difficulties, prompt := none }) :=
  C6_fallback_keeps_user_entry dbEmpty failOracle 1 "Hello" none (some "Alice") none (some 42)
    (fun _ => rfl)

end Bot

namespace Bot

/-- Reading context right after appending the first entry of a user yields
exactly that entry (for a truthy limit). -/
theorem get_context_singleton (l : List Conversation) (key : String) (e : Conversation)
    (hl : l.filter (fun c => c.user == key) = []) (he : (e.user == key) = true)
    (lim : Nat) (hlim : (lim == 0) = false) :
    get_context_pure (l ++ [e]) key (some lim) = [e] := by
  have hlim2 : 1 ≤ lim := by
    have : lim ≠ 0 := by simpa using hlim
    omega
  have hfe : List.filter (fun c => c.user == key) [e] = [e] := by
    simp [List.filter_cons, he]
  unfold get_context_pure
  rw [List.filter_append, hl, hfe]
  simp only [List.nil_append, List.reverse_cons, List.reverse_nil]
  rw [hlim]
  simp only [Bool.false_eq_true, if_false]
  rw [List.take_of_length_le (by simpa using hlim2)]
  simp

/-- The composed prompt over a context holding exactly the one inbound user
entry: the "Conversation history" branch is taken. -/
theorem build_full_prompt_single (fn un : Option String) (message key : String)
    (ts : Nat) (mid : Option Int) :
    build_full_prompt fn un
      [{ user := key, message_type := "user", content := message,
         timestamp := ts, message_id := mid }] message =
      ((system_prompt fn un ++ "\n\nConversation history:\n") ++ ("User: " ++ message)) ++
        "\n\nPlease respond to the latest user message." := by
  unfold build_full_prompt
  have hx : String.intercalate "\n"
      (((
        [{ user := key, message_type := "user", content := message,
           timestamp := ts, message_id := mid }] : List Conversation).drop
          (([{ user := key, message_type := "user", content := message,
               timestamp := ts, message_id := mid }] : List Conversation).length - 10)).map
        (fun m => capitalizeStr m.message_type ++ ": " ++ m.content)) =
      "User: " ++ message := rfl
  unfold lastSlice
  dsimp only
  rw [hx]
  rw [if_pos (show (("User: " ++ message) != "") = true by
    simp only [bne_iff_ne, ne_eq]
    exact append_left_ne_empty _ _ (by decide))]

/-- The Python `response.text or literal` idiom never yields an empty
string when the literal is non-empty. -/
theorem pyOptStr_getD_ne_empty (t : Option String) (d : String) (hd : d ≠ "") :
    (pyOptStr t).getD d ≠ "" := by
  cases t with
  | none => exact hd
  | some s =>
    show (if (s == "") = true then (none : Option String) else some s).getD d ≠ ""
    by_cases hs : (s == "") = true
    · rw [if_pos hs]
      exact hd
    · rw [if_neg hs]
      simpa using hs

end Bot

namespace Bot

set_option maxRecDepth 100000 in
/-- C1 counterexample: with no prior history, the builder appends the
inbound "Hello" before fetching context, so the fetched context is the
message itself and the composed prompt DOES contain a "Conversation
history" section (while the rest of the scenario — one user and one
assistant entry, non-empty reply — holds). -/
theorem C1_counterexample :
    strContains
      ((generate_response dbEmpty okOracle 1 "Hello" none (some "Alice") none (some 42)).prompt.getD "")
      "Conversation history" = true ∧
    (generate_response dbEmpty okOracle 1 "Hello" none (some "Alice") none (some 42)).db.conversations.map convData =
      [("1", "user", "Hello", some 42), ("1", "assistant", "Hi!", none)] ∧
    (generate_response dbEmpty okOracle 1 "Hello" none (some "Alice") none (some 42)).reply = "Hi!" := by
  refine ⟨by decide, rfl, rfl⟩

/-- C1 amended: for a user with no prior history and a non-raising
completion service, the composed prompt CONTAINS a "Conversation history"
section (the inbound user entry is appended in step 2, before the context
fetch of step 3, so the context is never empty); exactly one `user` entry
and one `assistant` entry are appended; the reply is non-empty. -/
theorem C1_text_chat (db : DB) (complete : String → CompletionResult)
    (tid : Int) (message : String) (un fn ln : Option String) (mid : Option Int)
    (hav : db.available = true)
    (hnoh : db.conversations.filter (fun c => c.user == toString tid) = [])
    (hc : ∀ p, complete p ≠ .failure) :
    (∃ p, (generate_response db complete tid message un fn ln mid).prompt = some p ∧
       strContains p "Conversation history" = true) ∧
    (generate_response db complete tid message un fn ln mid).db.conversations.map convData =
      db.conversations.map convData ++
        [(toString tid, "user", message, mid),
         (toString tid, "assistant",
          (generate_response db complete tid message un fn ln mid).reply, none)] ∧
    (generate_response db complete tid message un fn ln mid).reply ≠ "" := by
  obtain ⟨db1, u, hgocu, hconv, hfm, hav1, hutid⟩ := gocu_spec db tid un fn ln hav
  have hctx : get_context_pure
      (db1.conversations ++
        [{ user := toString u.telegram_id, message_type := "user", content := message,
           timestamp := db1.clock, message_id := mid }]) (toString u.telegram_id)
      (some max_context_messages) =
      [{ user := toString u.telegram_id, message_type := "user", content := message,
         timestamp := db1.clock, message_id := mid }] := by
    apply get_context_singleton
    · rw [hconv, hutid]
      exact hnoh
    · simp
    · decide
  unfold generate_response
  rw [hgocu]
  dsimp only
  unfold save_message
  rw [if_pos hav1]
  dsimp only
  unfold get_conversation_context
  dsimp only
  rw [if_pos hav1]
  dsimp only
  rw [hctx]
  rw [build_full_prompt_single fn un message (toString u.telegram_id) db1.clock mid]
  cases hcc : complete (((system_prompt fn un ++ "\n\nConversation history:\n") ++
      ("User: " ++ message)) ++ "\n\nPlease respond to the latest user message.") with
  | failure => exact absurd hcc (hc _)
  | success t =>
    dsimp only
    rw [if_pos hav1]
    dsimp only
    refine ⟨⟨_, rfl, ?_⟩, ?_, ?_⟩
    · exact strContains_append_right _ _ _
        (strContains_append_right _ _ _
          (strContains_append_left _ _ _ (by decide)))
    · simp [hconv, hutid, convData]
    · exact pyOptStr_getD_ne_empty t _ (by decide)

/-- Witness for the amended C1 at the empty store and the constant
successful completion. -/
theorem C1_text_chat_witness :
    (∃ p, (generate_response dbEmpty okOracle 1 "Hello" none (some "Alice") none (some 42)).prompt = some p ∧
       strContains p "Conversation history" = true) ∧
    (generate_response dbEmpty okOracle 1 "Hello" none (some "Alice") none (some 42)).db.conversations.map convData =
      dbEmpty.conversations.map convData ++
        [(toString (1:Int), "user", "Hello", some 42),
         (toString (1:Int), "assistant",
          (generate_response dbEmpty okOracle 1 "Hello" none (some "Alice") none (some 42)).reply, none)] ∧
    (generate_response dbEmpty okOracle 1 "Hello" none (some "Alice") none (some 42)).reply ≠ "" :=
  C1_text_chat dbEmpty okOracle 1 "Hello" none (some "Alice") none (some 42) rfl rfl
    (fun _ h => by simp [okOracle] at h)

end Bot

namespace Bot

/-- Successful photo analysis: exactly one new media record is appended and
it ends processed with its analysis text set; existing records are
untouched. -/
theorem analyze_image_run (db : DB) (cv : String → CompletionResult) (tid : Int)
    (fid : String) (cap : Option String)
    (hav : db.available = true) (hcv : ∀ p, cv p ≠ .failure) :
    (analyze_image db cv tid fid cap).1.file_messages.map fmView =
      db.file_messages.map fmView ++ [(toString tid, "photo", true, true)] := by
  obtain ⟨db1, u, hgocu, hconv, hfm, hav1, hutid⟩ := gocu_spec db tid none none none hav
  unfold analyze_image
  rw [hgocu]
  dsimp only
  unfold fmSaveNew
  rw [if_pos hav1]
  dsimp only
  cases hcc : cv (image_prompt cap) with
  | failure => exact absurd hcc (hcv _)
  | success t =>
    dsimp only
    unfold fmUpdate
    dsimp only
    rw [if_pos hav1]
    dsimp only
    rw [set_append_length]
    unfold save_message
    dsimp only
    rw [if_pos hav1]
    dsimp only
    rw [if_pos hav1]
    dsimp only
    rw [hfm, hutid]
    simp [fmView]

/-- The common tail of the document branches: the document record is the one
appended record and it ends processed with the analysis set. -/
theorem finish_document_run (db1 : DB) (user : User) (fm : FileMessage)
    (file_name analysis : String) (clk : Nat) (hav1 : db1.available = true) :
    (finish_document { db1 with file_messages := db1.file_messages ++ [fm], clock := clk }
        user fm db1.file_messages.length file_name analysis).1.file_messages =
      db1.file_messages ++ [{ fm with analysis_result := some analysis, processed := true }] := by
  unfold finish_document fmUpdate
  dsimp only
  rw [if_pos hav1]
  dsimp only
  rw [set_append_length]
  unfold save_message
  dsimp only
  rw [if_pos hav1]
  dsimp only
  rw [if_pos hav1]

/-- Document analysis on any non-image path (text MIME, unreadable text,
or unsupported type): the document record is appended and ends processed
with an analysis text, whatever the completion service does. -/
theorem analyze_document_plain_run (db : DB) (c cv : String → CompletionResult)
    (tid : Int) (fid : String) (content : Option String) (file_name : String)
    (mime_type : Option String) (hav : db.available = true)
    (himg : ∀ m, pyOptStr mime_type = some m → strContains m "image" = false) :
    (analyze_document db c cv tid fid content file_name mime_type).1.file_messages.map fmView =
      db.file_messages.map fmView ++ [(toString tid, "document", true, true)] := by
  obtain ⟨db1, u, hgocu, hconv, hfm, hav1, hutid⟩ := gocu_spec db tid none none none hav
  unfold analyze_document
  rw [hgocu]
  dsimp only
  unfold fmSaveNew
  rw [if_pos hav1]
  dsimp only
  cases hpm : pyOptStr mime_type with
  | none =>
    rw [finish_document_run db1 u _ file_name _ _ hav1]
    rw [hfm, hutid]
    simp [fmView]
  | some m =>
    dsimp only
    by_cases htext : strContains m "text" = true
    · rw [if_pos htext]
      rw [finish_document_run db1 u _ file_name _ _ hav1]
      rw [hfm, hutid]
      simp [fmView]
    · rw [if_neg htext]
      rw [himg m hpm]
      simp only [Bool.false_eq_true, if_false]
      rw [finish_document_run db1 u _ file_name _ _ hav1]
      rw [hfm, hutid]
      simp [fmView]

/-- Document analysis of an image MIME type: the source returns straight out
of the delegated photo analysis, so the document record stays unprocessed
forever while the delegated photo record is the one that transitions. -/
theorem analyze_document_image_run (db : DB) (c cv : String → CompletionResult)
    (tid : Int) (fid : String) (content : Option String) (file_name : String)
    (mime_type : Option String) (m : String) (hav : db.available = true)
    (hpm : pyOptStr mime_type = some m)
    (htext : strContains m "text" = false) (himg : strContains m "image" = true)
    (hcv : ∀ p, cv p ≠ .failure) :
    (analyze_document db c cv tid fid content file_name mime_type).1.file_messages.map fmView =
      db.file_messages.map fmView ++
        [(toString tid, "document", false, false), (toString tid, "photo", true, true)] := by
  obtain ⟨db1, u, hgocu, hconv, hfm, hav1, hutid⟩ := gocu_spec db tid none none none hav
  unfold analyze_document
  rw [hgocu]
  dsimp only
  unfold fmSaveNew
  rw [if_pos hav1]
  dsimp only
  rw [hpm]
  dsimp only
  rw [htext]
  simp only [Bool.false_eq_true, if_false]
  rw [himg]
  simp only [if_true]
  have himage := analyze_image_run
    { db1 with
      file_messages := db1.file_messages ++
        [{ user := toString u.telegram_id, file_id := fid, file_type := "document",
           file_name := some file_name, file_size := none, mime_type := mime_type,
           processed := false, analysis_result := none, timestamp := db1.clock }],
      clock := db1.clock + 1 }
    cv tid fid none hav1 hcv
  rw [himage]
  dsimp only
  rw [hfm, hutid]
  simp [fmView]

end Bot

namespace Bot

/-- C4 counterexample: a document declared `image/png` delegates to the
photo analysis; the run succeeds (the analysis text is returned), yet the
final store holds the document record still unprocessed with no analysis,
next to the processed photo record — the document record never
transitions. -/
theorem C4_counterexample :
    ((analyze_document dbEmpty okOracle okOracle 5 "fid" (some "data") "pic.png"
        (some "image/png")).1.file_messages.map fmView) =
      [("5", "document", false, false), ("5", "photo", true, true)] ∧
    (analyze_document dbEmpty okOracle okOracle 5 "fid" (some "data") "pic.png"
        (some "image/png")).2 = "Hi!" := by
  refine ⟨rfl, rfl⟩

/-- C4 amended: on the photo path and on every non-image document path the
single created record ends processed with its analysis set, in one write;
but on the document path with an image MIME type the document record stays
`processed = false` forever (the source returns straight out of the
delegated photo analysis), and only the delegated photo record
transitions. -/
theorem C4_processed_transition (db : DB) (c cv : String → CompletionResult)
    (tid : Int) (fid : String) (cap content : Option String) (file_name : String)
    (mime_type : Option String) (m : String) (hav : db.available = true) :
    ((∀ p, cv p ≠ .failure) →
      (analyze_image db cv tid fid cap).1.file_messages.map fmView =
        db.file_messages.map fmView ++ [(toString tid, "photo", true, true)]) ∧
    ((∀ m2, pyOptStr mime_type = some m2 → strContains m2 "image" = false) →
      (analyze_document db c cv tid fid content file_name mime_type).1.file_messages.map fmView =
        db.file_messages.map fmView ++ [(toString tid, "document", true, true)]) ∧
    (pyOptStr mime_type = some m → strContains m "text" = false →
     strContains m "image" = true → (∀ p, cv p ≠ .failure) →
      (analyze_document db c cv tid fid content file_name mime_type).1.file_messages.map fmView =
        db.file_messages.map fmView ++
          [(toString tid, "document", false, false), (toString tid, "photo", true, true)]) :=
  ⟨fun hcv => analyze_image_run db cv tid fid cap hav hcv,
   fun himg => analyze_document_plain_run db c cv tid fid content file_name mime_type hav himg,
   fun hpm htext himg hcv =>
     analyze_document_image_run db c cv tid fid content file_name mime_type m hav hpm htext himg hcv⟩

/-- Witness for the amended C4 at concrete inputs (image/png document). -/
theorem C4_processed_transition_witness :
    ((∀ p, okOracle p ≠ .failure) →
      (analyze_image dbEmpty okOracle 5 "fid" (some "nice view")).1.file_messages.map fmView =
        dbEmpty.file_messages.map fmView ++ [(toString (5:Int), "photo", true, true)]) ∧
    ((∀ m2, pyOptStr (some "image/png") = some m2 → strContains m2 "image" = false) →
      (analyze_document dbEmpty okOracle okOracle 5 "fid" (some "data") "pic.png"
          (some "image/png")).1.file_messages.map fmView =
        dbEmpty.file_messages.map fmView ++ [(toString (5:Int), "document", true, true)]) ∧
    (pyOptStr (some "image/png") = some "image/png" → strContains "image/png" "text" = false →
     strContains "image/png" "image" = true → (∀ p, okOracle p ≠ .failure) →
      (analyze_document dbEmpty okOracle okOracle 5 "fid" (some "data") "pic.png"
          (some "image/png")).1.file_messages.map fmView =
        dbEmpty.file_messages.map fmView ++
          [(toString (5:Int), "document", false, false), (toString (5:Int), "photo", true, true)]) :=
  C4_processed_transition dbEmpty okOracle okOracle 5 "fid" (some "nice view") (some "data")
    "pic.png" (some "image/png") "image/png" rfl

end Bot
